import Mathlib

/-!
# MaidSafe-Launcher: `AccountGetter` and `DirectoryInfo`

A shallow embedding of `src/maidsafe/launcher/account_getter.cc` and of
`include/maidsafe/launcher/directory_info.h`.

The embedding is of the live-overlay build of `account_getter.cc`
(`ROUTING_AND_NFS_UPDATED` defined, `USE_FAKE_STORE` not defined): `InitRouting`,
`InitialiseRoutingCallbacks` and `OnNetworkStatusChange` exist only in that build.

Stateful code is written in state-passing style.  The members of an `AccountGetter`
that the routing callbacks reach through `this` are collected in `Members`; the
calls made on the collaborating objects (the routing object, the data getter and
the condition variable) are recorded, in program order, in `Members.calls`.
C++ `int` values are `Int`: the code only stores and compares them.
-/

set_option autoImplicit false

namespace maidsafe

/-- The routing node identity; `string` is the value of `NodeId::string()`. -/
structure NodeId where
  string : String
deriving DecidableEq, Repr

/-- The type `Identity`, a wrapped string. -/
structure Identity where
  string : String
deriving DecidableEq, Repr

namespace passport

/-- The type `passport::PublicPmid::Name`, a tagged `Identity`. -/
structure PublicPmidName where
  value : Identity
deriving DecidableEq, Repr

end passport

namespace routing

/-- A routing message sent from one node to one node (contents are not inspected here). -/
structure SingleToSingleMessage where
  contents : String
deriving DecidableEq, Repr

/-- A routing message sent from one node to a group. -/
structure SingleToGroupMessage where
  contents : String
deriving DecidableEq, Repr

/-- A routing message sent from a group to one node. -/
structure GroupToSingleMessage where
  contents : String
deriving DecidableEq, Repr

/-- A routing message sent from a group to a group. -/
structure GroupToGroupMessage where
  contents : String
deriving DecidableEq, Repr

/-- A routing message sent from one node to a group through a relay. -/
structure SingleToGroupRelayMessage where
  contents : String
deriving DecidableEq, Repr

/-- The argument of the `close_nodes_change` functor (never inspected by the launcher). -/
structure CloseNodesChange where
  contents : String
deriving DecidableEq, Repr

/-- The reply callback `routing::GivePublicKeyFunctor` handed over by the routing object.
The launcher never calls it, it only stores it; `handle` identifies the callback. -/
structure GivePublicKeyFunctor where
  handle : Nat
deriving DecidableEq, Repr

/-- The error codes of `RoutingErrors` used by the launcher. -/
inductive RoutingErrors where
  | not_connected
deriving DecidableEq, Repr

end routing

namespace launcher

open routing

/-- The argument of the overloaded `DataGetter::HandleMessage`. -/
inductive HandledMessage where
  | single_to_single (message : SingleToSingleMessage)
  | group_to_single (message : GroupToSingleMessage)
deriving DecidableEq, Repr

/-- The future returned by `DataGetter::Get`; `ticket` numbers the `Get` calls made on the
data getter, so two calls never return the same future. -/
structure FutureKey where
  ticket : Nat
deriving DecidableEq, Repr

/-- A call made on a collaborating object. -/
inductive Call where
  | Routing_kNodeId
  | Routing_Join
  | Routing_reset
  | DataGetter_HandleMessage (message : HandledMessage)
  | DataGetter_Get (name : passport.PublicPmidName) (timeout_seconds : Nat) (future : FutureKey)
  | DataGetter_Stop
  | condition_variable_wait
  | condition_variable_notify
deriving DecidableEq, Repr

/-- The closure posted by `OnNetworkStatusChange`: it captures, by value, the reported
health and the node id. -/
structure Task where
  updated_network_health : Int
  node_id : NodeId
deriving DecidableEq, Repr

/-- The executor `asio_service_`: the number of worker threads it was constructed with,
the posted closures not yet taken by a worker (oldest first) and the closures taken by a
worker and not yet completed. -/
structure AsioService where
  thread_count : Nat
  queue : List Task := []
  running : List Task := []
deriving DecidableEq, Repr

/-- The member function `io_service::post`: the closure is appended to the queue. -/
def AsioService.post (service : AsioService) (task : Task) : AsioService :=
  { service with queue := service.queue ++ [task] }

/-- The data getter; `futures_issued` counts the futures handed out by `Get`. -/
structure DataGetter where
  futures_issued : Nat := 0
deriving DecidableEq, Repr

/-- The registry `public_pmid_helper_`: the stored (future, reply callback) pairs, oldest
first. -/
structure PublicPmidHelper where
  entries : List (FutureKey × GivePublicKeyFunctor) := []
deriving DecidableEq, Repr

/-- The member function `PublicPmidHelper::AddEntry`: one pair is stored. -/
def PublicPmidHelper.AddEntry (helper : PublicPmidHelper) (future : FutureKey)
    (give_key : GivePublicKeyFunctor) : PublicPmidHelper :=
  { helper with entries := helper.entries ++ [(future, give_key)] }

/-- The members of `AccountGetter` that the callbacks capture through `this`. -/
structure Members where
  network_health_ : Int
  data_getter_ : DataGetter
  public_pmid_helper_ : PublicPmidHelper
  asio_service_ : AsioService
  calls : List Call
deriving DecidableEq, Repr

/-- The call `data_getter_->HandleMessage(message)`. -/
def Members.data_getter_HandleMessage (self : Members) (message : HandledMessage) : Members :=
  { self with calls := self.calls ++ [Call.DataGetter_HandleMessage message] }

/-- The call `data_getter_->Get(name, timeout)`: a new future is returned. -/
def Members.data_getter_Get (self : Members) (name : passport.PublicPmidName)
    (timeout_seconds : Nat) : FutureKey × Members :=
  let future : FutureKey := { ticket := self.data_getter_.futures_issued }
  (future,
   { self with
     data_getter_ := { self.data_getter_ with
                       futures_issued := self.data_getter_.futures_issued + 1 }
     calls := self.calls ++ [Call.DataGetter_Get name timeout_seconds future] })

/-- The call `data_getter_->Stop()`. -/
def Members.data_getter_Stop (self : Members) : Members :=
  { self with calls := self.calls ++ [Call.DataGetter_Stop] }

end launcher

namespace routing

open launcher

/-- Modelled from the spec: `routing::UpdateNetworkHealth` is a function of the routing
library and is not among the sources.  Section 4.2: it "updates the stored score to
`new_score`, then notifies all threads blocked" in the wait.  The arguments
`current_health`, the mutex and the condition variable are the members of `self`. -/
def UpdateNetworkHealth (updated_health : Int) (self : Members) (_this_node_id : NodeId) :
    Members :=
  { self with
    network_health_ := updated_health
    calls := self.calls ++ [Call.condition_variable_notify] }

/-- The two slots that the routing object offers for one message type. -/
structure MessageAndCachingFunctors (M : Type) where
  message_received : Option (M → Members → Members) := none
  put_cache_data : Option (M → Members → Members) := none

/-- The member `typed_message_and_caching` of `routing::Functors`: one pair of slots for
each of the five message types. -/
structure TypedMessageAndCachingFunctor where
  single_to_single : MessageAndCachingFunctors SingleToSingleMessage := {}
  single_to_group : MessageAndCachingFunctors SingleToGroupMessage := {}
  group_to_single : MessageAndCachingFunctors GroupToSingleMessage := {}
  group_to_group : MessageAndCachingFunctors GroupToGroupMessage := {}
  single_to_group_relay : MessageAndCachingFunctors SingleToGroupRelayMessage := {}

/-- The table `routing::Functors`.  A default-constructed `std::function` is empty: every
slot starts as `none`. -/
structure Functors where
  typed_message_and_caching : TypedMessageAndCachingFunctor := {}
  network_status : Option (Int → Members → Members) := none
  close_nodes_change : Option (CloseNodesChange → Members → Members) := none
  request_public_key : Option (NodeId → GivePublicKeyFunctor → Members → Members) := none

/-- The routing object, as far as the launcher uses it: its node id and the tables it
was given through `Join`, oldest first. -/
structure Routing where
  kNodeId : NodeId
  joined : List Functors := []

end routing

namespace launcher

open routing

/-- The class `AccountGetter`: its members, and the owning pointer `routing_`, which is
empty after `reset()`. -/
structure AccountGetter extends Members where
  routing_ : Option Routing

/-- The result of running code that can throw, block or use an empty pointer.  `thrown` and
`blocked` keep the state reached when the exception was thrown, or in which the thread is
still waiting. -/
inductive Result (α : Type) where
  | ok (value : α)
  | thrown (error : RoutingErrors) (state : α)
  | blocked (state : α)
  | null_dereference

/-- The body of the closure posted by `OnNetworkStatusChange`. -/
def Task.run (task : Task) (self : Members) : Members :=
  UpdateNetworkHealth task.updated_network_health self task.node_id

/-- The member function `AccountGetter::OnNetworkStatusChange`. -/
def OnNetworkStatusChange (updated_network_health : Int) (node_id : NodeId)
    (self : Members) : Members :=
  { self with
    asio_service_ := self.asio_service_.post
      { updated_network_health := updated_network_health, node_id := node_id } }

/-- The member function `AccountGetter::InitialiseRoutingCallbacks`.  The slots are assigned
in the order of the source; `routing_->kNodeId()` needs a non-empty `routing_`. -/
def AccountGetter.InitialiseRoutingCallbacks (self : AccountGetter) :
    Option (Functors × AccountGetter) :=
  let functors : Functors := {}
  let functors : Functors :=
    { functors with
      typed_message_and_caching.group_to_single.message_received :=
        some (fun message this => this.data_getter_HandleMessage (.group_to_single message)) }
  match self.routing_ with
  | none => none
  | some routing_ =>
    let this_node_id := routing_.kNodeId
    let self : AccountGetter :=
      { self with calls := self.calls ++ [Call.Routing_kNodeId] }
    let functors : Functors :=
      { functors with
        network_status := some (fun network_health this =>
          OnNetworkStatusChange network_health this_node_id this) }
    let functors : Functors :=
      { functors with close_nodes_change := some (fun _close_nodes_change this => this) }
    let functors : Functors :=
      { functors with
        request_public_key := some (fun node_id give_key this =>
          let (future_key, this) :=
            this.data_getter_Get { value := { string := node_id.string } } 10
          { this with
            public_pmid_helper_ := this.public_pmid_helper_.AddEntry future_key give_key }) }
    let functors : Functors :=
      { functors with
        typed_message_and_caching.single_to_single.message_received :=
          some (fun message this => this.data_getter_HandleMessage (.single_to_single message)) }
    let functors : Functors :=
      { functors with
        typed_message_and_caching.single_to_group.message_received :=
          some (fun _message this => this) }
    let functors : Functors :=
      { functors with
        typed_message_and_caching.group_to_group.message_received :=
          some (fun _message this => this) }
    let functors : Functors :=
      { functors with
        typed_message_and_caching.single_to_group_relay.message_received :=
          some (fun _message this => this) }
    let functors : Functors :=
      { functors with
        typed_message_and_caching.single_to_group.put_cache_data :=
          some (fun _message this => this) }
    let functors : Functors :=
      { functors with
        typed_message_and_caching.group_to_single.put_cache_data :=
          some (fun _message this => this) }
    let functors : Functors :=
      { functors with
        typed_message_and_caching.group_to_group.put_cache_data :=
          some (fun _message this => this) }
    some (functors, self)

/-- The member function `Routing::Join`: the routing object keeps the table. -/
def Routing_Join (routing_ : Routing) (functors : Functors) : Routing :=
  { routing_ with joined := routing_.joined ++ [functors] }

/-- The predicate of the wait in `InitRouting`:
`(network_health_ == 100) || (network_health_ < -300000)`. -/
def InitRouting_wait_predicate (self : Members) : Bool :=
  (self.network_health_ == 100) || decide (self.network_health_ < -300000)

/-- Running closures one after the other, oldest first. -/
def run_closures (closures : List Task) (self : Members) : Members :=
  closures.foldl (fun this task => task.run this) self

/-- The call `condition_variable::wait(lock, pred)`, which is `while (!pred()) wait(lock);`.
The predicate is evaluated with the mutex held; inside `wait(lock)` the mutex is released.
Each element of `wakeups` is the list of closures that the executor completes while the
thread is inside one `wait(lock)`, that is between two evaluations of the predicate: several
closures if the thread did not get the mutex in between, none if the wake-up was spurious.
The first component says whether the wait has returned. -/
def condition_variable_wait (pred : Members → Bool) :
    List (List Task) → Members → Bool × Members
  | [], self => (pred self, self)
  | completed :: rest, self =>
    if pred self then (true, self)
    else condition_variable_wait pred rest (run_closures completed self)

/-- The member function `AccountGetter::InitRouting`. -/
def AccountGetter.InitRouting (self : AccountGetter) (wakeups : List (List Task)) :
    Result AccountGetter :=
  match self.InitialiseRoutingCallbacks with
  | none => .null_dereference
  | some (functors, self) =>
    match self.routing_ with
    | none => .null_dereference
    | some routing_ =>
      let self : AccountGetter :=
        { self with
          routing_ := some (Routing_Join routing_ functors)
          calls := self.calls ++ [Call.Routing_Join] }
      let self : AccountGetter :=
        { self with calls := self.calls ++ [Call.condition_variable_wait] }
      match condition_variable_wait InitRouting_wait_predicate wakeups self.toMembers with
      | (false, members) => .blocked { self with toMembers := members }
      | (true, members) =>
        let self : AccountGetter := { self with toMembers := members }
        if self.network_health_ < 0 then .thrown RoutingErrors.not_connected self
        else .ok self

/-- The members as the constructor initialises them: `network_health_(-1)` and
`asio_service_(2)`. -/
def Members.initial : Members :=
  { network_health_ := -1
    data_getter_ := {}
    public_pmid_helper_ := {}
    asio_service_ := { thread_count := 2 }
    calls := [] }

/-- The object as the member initialisers of the constructor leave it, before the body
runs.  `kNodeId` is the node id of the routing object made by
`make_unique<routing::Routing>()`. -/
def AccountGetter.initialised (kNodeId : NodeId) : AccountGetter :=
  { Members.initial with routing_ := some { kNodeId := kNodeId } }

/-- The constructor `AccountGetter::AccountGetter()`: the members are initialised, then
`InitRouting()` runs. -/
def AccountGetter.construct (kNodeId : NodeId) (wakeups : List (List Task)) :
    Result AccountGetter :=
  let self : AccountGetter := AccountGetter.initialised kNodeId
  self.InitRouting wakeups

/-- The static member function `AccountGetter::CreateAccountGetter`: the result is what
`get()` on the returned future gives, a value or the exception thrown by the constructor. -/
def AccountGetter.CreateAccountGetter (kNodeId : NodeId) (wakeups : List (List Task)) :
    Result AccountGetter :=
  AccountGetter.construct kNodeId wakeups

/-- The destructor `AccountGetter::~AccountGetter()`: `data_getter_->Stop()`, then
`routing_.reset()`.  What the routing object does while it is destroyed is not part of this
function. -/
def AccountGetter.destructor (self : AccountGetter) : AccountGetter :=
  let self : AccountGetter := { self with toMembers := self.toMembers.data_getter_Stop }
  { self with
    routing_ := none
    calls := self.calls ++ [Call.Routing_reset] }

/-- One step of the executor and of the thread that feeds it: the routing object reports a
health value (the `network_status` functor runs `OnNetworkStatusChange`), a worker thread
takes the oldest queued closure, or a worker completes the closure it has taken. -/
inductive WorkerEvent where
  | network_status (network_health : Int) (this_node_id : NodeId)
  | start
  | complete (index : Nat)
deriving DecidableEq, Repr

/-- Modelled from the spec: the executor `AsioService` is a class of the common library and
is not among the sources.  Section 4.3: a "fixed pool of worker threads (two is sufficient;
sizing is a policy knob, not a correctness requirement) backed by a FIFO task queue";
"tasks execute in enqueue order per queue" and "each task runs to completion"; the executor
is there to "serialize" the health mutation, and section 5 has the score "exclusively mutated
by the executor thread processing health-update tasks in arrival order".  So, whatever the
number of worker threads (at least one), the oldest queued closure is started when no
closure is running, and a started closure runs its body to completion in one step. -/
def AsioService_step : WorkerEvent → Members → Option Members
  | .network_status network_health this_node_id, self =>
    some (OnNetworkStatusChange network_health this_node_id self)
  | .start, self =>
    if self.asio_service_.running.isEmpty && decide (0 < self.asio_service_.thread_count) then
      match self.asio_service_.queue with
      | [] => none
      | task :: rest =>
        some { self with
               asio_service_ := { self.asio_service_ with
                                  queue := rest
                                  running := self.asio_service_.running ++ [task] } }
    else none
  | .complete index, self =>
    match self.asio_service_.running.get? index with
    | none => none
    | some task =>
      some (task.run
        { self with
          asio_service_ := { self.asio_service_ with
                             running := self.asio_service_.running.eraseIdx index } })

/-- The enumeration `AccessRights`. -/
inductive AccessRights where
  | kReadOnly
  | kReadWrite
deriving DecidableEq, Repr

end launcher

namespace drive

/-- The type `drive::ParentId`, an identity. -/
structure ParentId where
  value : Identity
deriving DecidableEq, Repr

/-- The type `drive::DirectoryId`, an identity. -/
structure DirectoryId where
  value : Identity
deriving DecidableEq, Repr

end drive

namespace launcher

open routing

/-- The type `boost::filesystem::path`, held in its native form, a narrow string. -/
structure Path where
  native : String
deriving DecidableEq, Repr

/-- The member function `path::string()`. -/
def Path.string (path : Path) : String := path.native

/-- The member function `path::assign(begin, end)` on the characters of a string. -/
def Path.assign (_path : Path) (characters : List Char) : Path :=
  { native := String.mk characters }

/-- One value held by an archive. -/
inductive ArchiveValue where
  | string (value : String)
  | parent_id (value : drive.ParentId)
  | directory_id (value : drive.DirectoryId)
  | access_rights (value : AccessRights)
deriving DecidableEq, Repr

/-- The template parameter `Archive`: the values written so far, oldest first; reading takes
them from the front. -/
abbrev Archive := List ArchiveValue

/-- The struct `DirectoryInfo`. -/
structure DirectoryInfo where
  path : Path
  parent_id : drive.ParentId
  directory_id : drive.DirectoryId
  access_rights : AccessRights
deriving DecidableEq, Repr

/-- The member function `DirectoryInfo::save`:
`archive(path.string(), parent_id, directory_id, access_rights)`. -/
def DirectoryInfo.save (self : DirectoryInfo) (archive : Archive) : Archive :=
  archive ++ [ArchiveValue.string self.path.string, ArchiveValue.parent_id self.parent_id,
    ArchiveValue.directory_id self.directory_id, ArchiveValue.access_rights self.access_rights]

/-- The member function `DirectoryInfo::load`: the four values are read in the order
`path_as_string, parent_id, directory_id, access_rights`, then the path is assigned from the
characters of the string.  `none` if the archive does not hold these four values next. -/
def DirectoryInfo.load (self : DirectoryInfo) (archive : Archive) :
    Option (DirectoryInfo × Archive) :=
  match archive with
  | ArchiveValue.string path_as_string :: ArchiveValue.parent_id parent_id ::
      ArchiveValue.directory_id directory_id :: ArchiveValue.access_rights access_rights ::
      rest =>
    let self : DirectoryInfo :=
      { self with
        parent_id := parent_id, directory_id := directory_id, access_rights := access_rights }
    some ({ self with path := self.path.assign path_as_string.data }, rest)
  | _ => none

/-- The state carried by a result, if any. -/
def Result.state {α : Type} : Result α → Option α
  | .ok value => some value
  | .thrown _ state => some state
  | .blocked state => some state
  | .null_dereference => none

/-- A constructed object used in the examples: node id `"node"`, nothing joined yet. -/
def example_account_getter : AccountGetter :=
  { Members.initial with routing_ := some { kNodeId := { string := "node" } } }

/-- The state after the `request_public_key` handler has served one request: one call
`Get(name, 10 s)` on the data getter, whose future is stored with the reply callback. -/
def after_request_public_key (node_id : NodeId) (give_key : GivePublicKeyFunctor)
    (this : Members) : Members :=
  { this with
    data_getter_ := { futures_issued := this.data_getter_.futures_issued + 1 }
    public_pmid_helper_ :=
      { entries := this.public_pmid_helper_.entries ++
          [({ ticket := this.data_getter_.futures_issued }, give_key)] }
    calls := this.calls ++
      [Call.DataGetter_Get { value := { string := node_id.string } } 10
        { ticket := this.data_getter_.futures_issued }] }

/-- Serving a list of requests one after the other with a `request_public_key` handler. -/
def serve_requests (handler : NodeId → GivePublicKeyFunctor → Members → Members)
    (requests : List (NodeId × GivePublicKeyFunctor)) (this : Members) : Members :=
  requests.foldl (fun this request => handler request.1 request.2 this) this

/-- The state in which `InitRouting` starts to wait: the node id has been queried, the
table has been handed to `Join`, and the wait has begun. -/
def waiting_state (self : AccountGetter) (routing_ : Routing) (functors : Functors) :
    AccountGetter :=
  { self with
    routing_ := some (Routing_Join routing_ functors)
    calls := self.calls ++
      [Call.Routing_kNodeId, Call.Routing_Join, Call.condition_variable_wait] }

/-- The exception thrown, if any. -/
def Result.error {α : Type} : Result α → Option RoutingErrors
  | .thrown error _ => some error
  | _ => none

/-- The object returned by a normal completion, if any. -/
def Result.value {α : Type} : Result α → Option α
  | .ok value => some value
  | _ => none

/-- The five slots `message_received` of the table built by `InitialiseRoutingCallbacks`
and what each handler does.
C3: the group-to-single and the single-to-single handler each make exactly one call
`HandleMessage(m)` on the data getter and change nothing else; the single-to-group,
group-to-group and single-to-group-relay handlers return the state they were given. -/
theorem message_received_handlers (self : AccountGetter) (routing_ : Routing)
    (h : self.routing_ = some routing_) :
    ∃ functors next,
      self.InitialiseRoutingCallbacks = some (functors, next) ∧
      (∃ handler,
        functors.typed_message_and_caching.group_to_single.message_received = some handler ∧
        ∀ (m : GroupToSingleMessage) (this : Members),
          handler m this =
            { this with
              calls := this.calls ++ [Call.DataGetter_HandleMessage (.group_to_single m)] }) ∧
      (∃ handler,
        functors.typed_message_and_caching.single_to_single.message_received = some handler ∧
        ∀ (m : SingleToSingleMessage) (this : Members),
          handler m this =
            { this with
              calls := this.calls ++ [Call.DataGetter_HandleMessage (.single_to_single m)] }) ∧
      (∃ handler,
        functors.typed_message_and_caching.single_to_group.message_received = some handler ∧
        ∀ (m : SingleToGroupMessage) (this : Members), handler m this = this) ∧
      (∃ handler,
        functors.typed_message_and_caching.group_to_group.message_received = some handler ∧
        ∀ (m : GroupToGroupMessage) (this : Members), handler m this = this) ∧
      (∃ handler,
        functors.typed_message_and_caching.single_to_group_relay.message_received =
          some handler ∧
        ∀ (m : SingleToGroupRelayMessage) (this : Members), handler m this = this) := by
  simp only [AccountGetter.InitialiseRoutingCallbacks, h]
  refine ⟨_, _, rfl, ⟨_, rfl, ?_⟩, ⟨_, rfl, ?_⟩, ⟨_, rfl, ?_⟩, ⟨_, rfl, ?_⟩, ⟨_, rfl, ?_⟩⟩
  · intro m this; rfl
  · intro m this; rfl
  · intro m this; rfl
  · intro m this; rfl
  · intro m this; rfl

/-- The five `message_received` handlers of the table built for the example object. -/
theorem message_received_handlers_witness :
    example_account_getter.routing_ = some { kNodeId := { string := "node" } } ∧
    ∃ functors next,
      example_account_getter.InitialiseRoutingCallbacks = some (functors, next) ∧
      (∃ handler,
        functors.typed_message_and_caching.group_to_single.message_received = some handler ∧
        ∀ (m : GroupToSingleMessage) (this : Members),
          handler m this =
            { this with
              calls := this.calls ++ [Call.DataGetter_HandleMessage (.group_to_single m)] }) ∧
      (∃ handler,
        functors.typed_message_and_caching.single_to_single.message_received = some handler ∧
        ∀ (m : SingleToSingleMessage) (this : Members),
          handler m this =
            { this with
              calls := this.calls ++ [Call.DataGetter_HandleMessage (.single_to_single m)] }) ∧
      (∃ handler,
        functors.typed_message_and_caching.single_to_group.message_received = some handler ∧
        ∀ (m : SingleToGroupMessage) (this : Members), handler m this = this) ∧
      (∃ handler,
        functors.typed_message_and_caching.group_to_group.message_received = some handler ∧
        ∀ (m : GroupToGroupMessage) (this : Members), handler m this = this) ∧
      (∃ handler,
        functors.typed_message_and_caching.single_to_group_relay.message_received =
          some handler ∧
        ∀ (m : SingleToGroupRelayMessage) (this : Members), handler m this = this) :=
  ⟨rfl, message_received_handlers example_account_getter _ rfl⟩

/-- The slot `single_to_single.put_cache_data` of the table built for the example object is
empty, and so is `single_to_group_relay.put_cache_data`: `InitialiseRoutingCallbacks` never
assigns `put_cache_data` for these two message types. -/
theorem put_cache_data_single_to_single_empty :
    (example_account_getter.InitialiseRoutingCallbacks.map fun built =>
      (built.1.typed_message_and_caching.single_to_single.put_cache_data.isSome,
       built.1.typed_message_and_caching.single_to_group_relay.put_cache_data.isSome)) =
      some (false, false) := by
  rfl

/-- The slots of the table built by `InitialiseRoutingCallbacks`.
C4 (amended): `message_received` is set for all five message types; `put_cache_data` is set
for the single-to-group, group-to-single and group-to-group types, and each of these three
handlers returns the state it was given; `put_cache_data` is left empty for the
single-to-single and the single-to-group-relay types. -/
theorem handler_table_slots (self : AccountGetter) (routing_ : Routing)
    (h : self.routing_ = some routing_) :
    ∃ functors next,
      self.InitialiseRoutingCallbacks = some (functors, next) ∧
      functors.typed_message_and_caching.single_to_single.message_received.isSome = true ∧
      functors.typed_message_and_caching.single_to_group.message_received.isSome = true ∧
      functors.typed_message_and_caching.group_to_single.message_received.isSome = true ∧
      functors.typed_message_and_caching.group_to_group.message_received.isSome = true ∧
      functors.typed_message_and_caching.single_to_group_relay.message_received.isSome = true ∧
      (∃ handler,
        functors.typed_message_and_caching.single_to_group.put_cache_data = some handler ∧
        ∀ (m : SingleToGroupMessage) (this : Members), handler m this = this) ∧
      (∃ handler,
        functors.typed_message_and_caching.group_to_single.put_cache_data = some handler ∧
        ∀ (m : GroupToSingleMessage) (this : Members), handler m this = this) ∧
      (∃ handler,
        functors.typed_message_and_caching.group_to_group.put_cache_data = some handler ∧
        ∀ (m : GroupToGroupMessage) (this : Members), handler m this = this) ∧
      functors.typed_message_and_caching.single_to_single.put_cache_data.isSome = false ∧
      functors.typed_message_and_caching.single_to_group_relay.put_cache_data.isSome = false := by
  simp only [AccountGetter.InitialiseRoutingCallbacks, h]
  refine ⟨_, _, rfl, rfl, rfl, rfl, rfl, rfl, ⟨_, rfl, ?_⟩, ⟨_, rfl, ?_⟩, ⟨_, rfl, ?_⟩,
    rfl, rfl⟩
  · intro m this; rfl
  · intro m this; rfl
  · intro m this; rfl

/-- The slots of the table built for the example object. -/
theorem handler_table_slots_witness :
    example_account_getter.routing_ = some { kNodeId := { string := "node" } } ∧
    ∃ functors next,
      example_account_getter.InitialiseRoutingCallbacks = some (functors, next) ∧
      functors.typed_message_and_caching.single_to_single.message_received.isSome = true ∧
      functors.typed_message_and_caching.single_to_group.message_received.isSome = true ∧
      functors.typed_message_and_caching.group_to_single.message_received.isSome = true ∧
      functors.typed_message_and_caching.group_to_group.message_received.isSome = true ∧
      functors.typed_message_and_caching.single_to_group_relay.message_received.isSome = true ∧
      (∃ handler,
        functors.typed_message_and_caching.single_to_group.put_cache_data = some handler ∧
        ∀ (m : SingleToGroupMessage) (this : Members), handler m this = this) ∧
      (∃ handler,
        functors.typed_message_and_caching.group_to_single.put_cache_data = some handler ∧
        ∀ (m : GroupToSingleMessage) (this : Members), handler m this = this) ∧
      (∃ handler,
        functors.typed_message_and_caching.group_to_group.put_cache_data = some handler ∧
        ∀ (m : GroupToGroupMessage) (this : Members), handler m this = this) ∧
      functors.typed_message_and_caching.single_to_single.put_cache_data.isSome = false ∧
      functors.typed_message_and_caching.single_to_group_relay.put_cache_data.isSome = false :=
  ⟨rfl, handler_table_slots example_account_getter _ rfl⟩

/-- Serving requests with a handler that behaves as `after_request_public_key`: the k-th
request gets the k-th new future, and calls and entries grow by one per request. -/
theorem serve_requests_spec (handler : NodeId → GivePublicKeyFunctor → Members → Members)
    (hh : ∀ n cb this, handler n cb this = after_request_public_key n cb this)
    (requests : List (NodeId × GivePublicKeyFunctor)) (this : Members) :
    serve_requests handler requests this =
      { this with
        data_getter_ := { futures_issued := this.data_getter_.futures_issued + requests.length }
        public_pmid_helper_ :=
          { entries := this.public_pmid_helper_.entries ++
              (requests.enumFrom this.data_getter_.futures_issued).map fun numbered =>
                (({ ticket := numbered.1 } : FutureKey), numbered.2.2) }
        calls := this.calls ++
          (requests.enumFrom this.data_getter_.futures_issued).map fun numbered =>
            Call.DataGetter_Get { value := { string := numbered.2.1.string } } 10
              { ticket := numbered.1 } } := by
  induction requests generalizing this with
  | nil => simp [serve_requests]
  | cons request rest ih =>
    have step : serve_requests handler (request :: rest) this =
        serve_requests handler rest (after_request_public_key request.1 request.2 this) := by
      simp [serve_requests, hh]
    rw [step, ih]
    simp [after_request_public_key, List.enumFrom, Nat.add_assoc, Nat.add_comm 1]

/-- What `serve_requests_spec` gives for the calls, the entries and the untouched members. -/
theorem serve_requests_facts (handler : NodeId → GivePublicKeyFunctor → Members → Members)
    (hh : ∀ n cb this, handler n cb this = after_request_public_key n cb this)
    (requests : List (NodeId × GivePublicKeyFunctor)) (this : Members) :
    (serve_requests handler requests this).calls =
      this.calls ++
        (requests.enumFrom this.data_getter_.futures_issued).map (fun numbered =>
          Call.DataGetter_Get { value := { string := numbered.2.1.string } } 10
            { ticket := numbered.1 }) ∧
    (serve_requests handler requests this).public_pmid_helper_.entries =
      this.public_pmid_helper_.entries ++
        (requests.enumFrom this.data_getter_.futures_issued).map (fun numbered =>
          (({ ticket := numbered.1 } : FutureKey), numbered.2.2)) ∧
    (serve_requests handler requests this).calls.length =
      this.calls.length + requests.length ∧
    (serve_requests handler requests this).public_pmid_helper_.entries.length =
      this.public_pmid_helper_.entries.length + requests.length ∧
    (serve_requests handler requests this).network_health_ = this.network_health_ ∧
    (serve_requests handler requests this).asio_service_ = this.asio_service_ := by
  rw [serve_requests_spec handler hh requests this]
  simp

/-- The `request_public_key` handler of the table built by `InitialiseRoutingCallbacks`.
C5: for every node id `n` and reply callback `cb` the handler makes exactly one call
`Get` for the name built from `n.string` with a timeout of 10 seconds and stores exactly
one entry, the future of that call paired with `cb`; served one after the other, k requests
(equal or not) give k calls `Get` with k different futures and k entries, the i-th entry
holding the i-th callback. -/
theorem request_public_key_handler (self : AccountGetter) (routing_ : Routing)
    (h : self.routing_ = some routing_) :
    ∃ functors next handler,
      self.InitialiseRoutingCallbacks = some (functors, next) ∧
      functors.request_public_key = some handler ∧
      (∀ (n : NodeId) (cb : GivePublicKeyFunctor) (this : Members),
        handler n cb this =
          { this with
            data_getter_ := { futures_issued := this.data_getter_.futures_issued + 1 }
            public_pmid_helper_ :=
              { entries := this.public_pmid_helper_.entries ++
                  [({ ticket := this.data_getter_.futures_issued }, cb)] }
            calls := this.calls ++
              [Call.DataGetter_Get { value := { string := n.string } } 10
                { ticket := this.data_getter_.futures_issued }] }) ∧
      (∀ (requests : List (NodeId × GivePublicKeyFunctor)) (this : Members),
        (serve_requests handler requests this).calls =
          this.calls ++
            (requests.enumFrom this.data_getter_.futures_issued).map (fun numbered =>
              Call.DataGetter_Get { value := { string := numbered.2.1.string } } 10
                { ticket := numbered.1 }) ∧
        (serve_requests handler requests this).public_pmid_helper_.entries =
          this.public_pmid_helper_.entries ++
            (requests.enumFrom this.data_getter_.futures_issued).map (fun numbered =>
              (({ ticket := numbered.1 } : FutureKey), numbered.2.2)) ∧
        (serve_requests handler requests this).calls.length =
          this.calls.length + requests.length ∧
        (serve_requests handler requests this).public_pmid_helper_.entries.length =
          this.public_pmid_helper_.entries.length + requests.length ∧
        (serve_requests handler requests this).network_health_ = this.network_health_ ∧
        (serve_requests handler requests this).asio_service_ = this.asio_service_) := by
  simp only [AccountGetter.InitialiseRoutingCallbacks, h]
  refine ⟨_, _, _, rfl, rfl, ?_, ?_⟩
  · intro n cb this; rfl
  · intro requests this
    exact serve_requests_facts _ (fun n cb this => rfl) requests this

/-- The destructor appends the calls `Stop` and `reset`, in this order, empties `routing_`
and changes nothing else.
C6: destroying an `AccountGetter` calls `data_getter_->Stop()` first and releases the routing
object afterwards; these are its only two effects, so the release never comes before
`Stop`. -/
theorem destructor_stop_then_reset (self : AccountGetter) :
    self.destructor.calls = self.calls ++ [Call.DataGetter_Stop, Call.Routing_reset] ∧
    self.destructor.routing_ = none ∧
    self.destructor.network_health_ = self.network_health_ ∧
    self.destructor.data_getter_ = self.data_getter_ ∧
    self.destructor.public_pmid_helper_ = self.public_pmid_helper_ ∧
    self.destructor.asio_service_ = self.asio_service_ := by
  refine ⟨?_, rfl, rfl, rfl, rfl, rfl⟩
  simp [AccountGetter.destructor, Members.data_getter_Stop]

/-- The closure posted for a health value writes that value and notifies, whatever the
state it runs in. -/
theorem Task_run_eq (task : Task) (this : Members) :
    task.run this =
      { this with
        network_health_ := task.updated_network_health
        calls := this.calls ++ [Call.condition_variable_notify] } := rfl

/-- A step of the executor changes the stored health only by completing a closure, and
then the new value is the one the closure carries. -/
theorem AsioService_step_network_health (event : WorkerEvent) (this next : Members)
    (hstep : AsioService_step event this = some next)
    (hchange : next.network_health_ ≠ this.network_health_) :
    ∃ index task, event = WorkerEvent.complete index ∧
      this.asio_service_.running.get? index = some task ∧
      next.network_health_ = task.updated_network_health := by
  cases event with
  | network_status network_health this_node_id =>
    simp only [AsioService_step, Option.some.injEq] at hstep
    subst hstep
    exact absurd rfl hchange
  | start =>
    simp only [AsioService_step] at hstep
    split at hstep
    · split at hstep
      · exact absurd hstep (by simp)
      · simp only [Option.some.injEq] at hstep
        subst hstep
        exact absurd rfl hchange
    · exact absurd hstep (by simp)
  | complete index =>
    simp only [AsioService_step] at hstep
    split at hstep
    · exact absurd hstep (by simp)
    · rename_i task htask
      simp only [Option.some.injEq] at hstep
      subst hstep
      exact ⟨index, task, rfl, htask, rfl⟩

/-- The functor `network_status` and `OnNetworkStatusChange`.
C7: for every health value `h` reported through the `network_status` functor,
`OnNetworkStatusChange` leaves the stored health (and every other member) as it is and
appends exactly one closure to the queue of the executor; running that closure sets the
stored health to exactly `h`, whatever it was, and notifies the condition variable; no other
step of the executor changes the stored health. -/
theorem network_status_posts_one_task (self : AccountGetter) (routing_ : Routing)
    (h : self.routing_ = some routing_) :
    ∃ functors next handler,
      self.InitialiseRoutingCallbacks = some (functors, next) ∧
      functors.network_status = some handler ∧
      (∀ (network_health : Int) (this : Members),
        handler network_health this =
          OnNetworkStatusChange network_health routing_.kNodeId this) ∧
      (∀ (network_health : Int) (node_id : NodeId) (this : Members),
        OnNetworkStatusChange network_health node_id this =
          { this with
            asio_service_ :=
              { this.asio_service_ with
                queue := this.asio_service_.queue ++
                  [{ updated_network_health := network_health, node_id := node_id }] } } ∧
        (OnNetworkStatusChange network_health node_id this).network_health_ =
          this.network_health_ ∧
        (OnNetworkStatusChange network_health node_id this).asio_service_.queue.length =
          this.asio_service_.queue.length + 1) ∧
      (∀ (network_health : Int) (node_id : NodeId) (this : Members),
        (Task.run { updated_network_health := network_health, node_id := node_id }
          this).network_health_ = network_health ∧
        Task.run { updated_network_health := network_health, node_id := node_id } this =
          { this with
            network_health_ := network_health
            calls := this.calls ++ [Call.condition_variable_notify] }) ∧
      (∀ (event : WorkerEvent) (this after : Members),
        AsioService_step event this = some after →
        after.network_health_ ≠ this.network_health_ →
        ∃ index task, event = WorkerEvent.complete index ∧
          this.asio_service_.running.get? index = some task ∧
          after.network_health_ = task.updated_network_health) := by
  simp only [AccountGetter.InitialiseRoutingCallbacks, h]
  refine ⟨_, _, _, rfl, rfl, ?_, ?_, ?_, ?_⟩
  · intro network_health this; rfl
  · intro network_health node_id this
    refine ⟨rfl, rfl, ?_⟩
    simp [OnNetworkStatusChange, AsioService.post]
  · intro network_health node_id this
    exact ⟨rfl, rfl⟩
  · intro event this after hstep hchange
    exact AsioService_step_network_health event this after hstep hchange

/-- The predicate of the wait holds exactly at 100 and below -300000. -/
theorem InitRouting_wait_predicate_iff (this : Members) :
    InitRouting_wait_predicate this = true ↔
      (this.network_health_ = 100 ∨ this.network_health_ < -300000) := by
  simp [InitRouting_wait_predicate]

/-- Running closures only adds one notification per closure to the calls and leaves the
data getter, the registry and the executor as they are. -/
theorem run_closures_frame (closures : List Task) (this : Members) :
    (run_closures closures this).calls =
      this.calls ++ List.replicate closures.length Call.condition_variable_notify ∧
    (run_closures closures this).data_getter_ = this.data_getter_ ∧
    (run_closures closures this).public_pmid_helper_ = this.public_pmid_helper_ ∧
    (run_closures closures this).asio_service_ = this.asio_service_ := by
  induction closures generalizing this with
  | nil => simp [run_closures]
  | cons task rest ih =>
    obtain ⟨hcalls, hdata, hhelper, hasio⟩ := ih (task.run this)
    have hstep : run_closures (task :: rest) this = run_closures rest (task.run this) := rfl
    rw [hstep, hcalls, hdata, hhelper, hasio]
    refine ⟨?_, rfl, rfl, rfl⟩
    simp [Task_run_eq, List.replicate_succ]

/-- What the wait does to the members: it only runs closures, so the calls grow by
notifications, the other members stay, and the wait has returned exactly if the predicate
holds in the state reached. -/
theorem condition_variable_wait_spec (pred : Members → Bool) (wakeups : List (List Task))
    (this : Members) :
    ∃ count,
      (condition_variable_wait pred wakeups this).2.calls =
        this.calls ++ List.replicate count Call.condition_variable_notify ∧
      (condition_variable_wait pred wakeups this).2.data_getter_ = this.data_getter_ ∧
      (condition_variable_wait pred wakeups this).2.public_pmid_helper_ =
        this.public_pmid_helper_ ∧
      (condition_variable_wait pred wakeups this).2.asio_service_ = this.asio_service_ ∧
      (condition_variable_wait pred wakeups this).1 =
        pred (condition_variable_wait pred wakeups this).2 := by
  induction wakeups generalizing this with
  | nil => exact ⟨0, by simp [condition_variable_wait]⟩
  | cons completed rest ih =>
    by_cases hp : pred this = true
    · exact ⟨0, by simp [condition_variable_wait, hp]⟩
    · obtain ⟨count, hcalls, hdata, hhelper, hasio, hpred⟩ := ih (run_closures completed this)
      obtain ⟨fcalls, fdata, fhelper, fasio⟩ := run_closures_frame completed this
      have hstep : condition_variable_wait pred (completed :: rest) this =
          condition_variable_wait pred rest (run_closures completed this) := by
        simp [condition_variable_wait, hp]
      rw [hstep]
      refine ⟨completed.length + count, ?_, ?_, ?_, ?_, hpred⟩
      · rw [hcalls, fcalls, List.append_assoc, ← List.replicate_add]
      · rw [hdata, fdata]
      · rw [hhelper, fhelper]
      · rw [hasio, fasio]

/-- A wait whose predicate already holds returns at once. -/
theorem wait_of_released (pred : Members → Bool) (wakeups : List (List Task))
    (this : Members) (hp : pred this = true) :
    condition_variable_wait pred wakeups this = (true, this) := by
  cases wakeups with
  | nil => simp [condition_variable_wait, hp]
  | cons completed rest => simp [condition_variable_wait, hp]

/-- A spurious wake-up changes nothing. -/
theorem wait_spurious (pred : Members → Bool) (rest : List (List Task)) (this : Members) :
    condition_variable_wait pred ([] :: rest) this =
      condition_variable_wait pred rest this := by
  by_cases hp : pred this = true
  · rw [wait_of_released pred _ this hp, wait_of_released pred _ this hp]
  · simp [condition_variable_wait, hp, run_closures]

/-- If no closure completes, the wait ends where it began. -/
theorem wait_no_closure (pred : Members → Bool) (wakeups : List (List Task))
    (this : Members) (hnone : wakeups.flatten = []) :
    condition_variable_wait pred wakeups this = (pred this, this) := by
  induction wakeups with
  | nil => rfl
  | cons completed rest ih =>
    rw [List.flatten_cons, List.append_eq_nil] at hnone
    rw [hnone.1, wait_spurious, ih hnone.2]

/-- If exactly one closure completes while the thread waits, the wait ends after it. -/
theorem wait_one_closure (pred : Members → Bool) (wakeups : List (List Task))
    (this : Members) (only : Task) (hone : wakeups.flatten = [only])
    (hp : pred this = false) :
    condition_variable_wait pred wakeups this = (pred (only.run this), only.run this) := by
  induction wakeups with
  | nil => simp at hone
  | cons completed rest ih =>
    rw [List.flatten_cons] at hone
    cases completed with
    | nil => rw [wait_spurious]; exact ih (by simpa using hone)
    | cons task others =>
      simp only [List.cons_append, List.cons.injEq, List.append_eq_nil] at hone
      obtain ⟨rfl, rfl, hrest⟩ := hone
      have hstep : condition_variable_wait pred ([task] :: rest) this =
          condition_variable_wait pred rest (task.run this) := by
        simp [condition_variable_wait, hp, run_closures]
      rw [hstep, wait_no_closure pred rest _ hrest]

/-- If exactly two closures complete while the thread waits and the first does not release
it, the wait ends after the second, however the closures fall between the wake-ups. -/
theorem wait_two_closures (pred : Members → Bool) (wakeups : List (List Task))
    (this : Members) (first second : Task) (htwo : wakeups.flatten = [first, second])
    (hp : pred this = false) (hfirst : pred (first.run this) = false) :
    condition_variable_wait pred wakeups this =
      (pred (second.run (first.run this)), second.run (first.run this)) := by
  induction wakeups with
  | nil => simp at htwo
  | cons completed rest ih =>
    rw [List.flatten_cons] at htwo
    cases completed with
    | nil => rw [wait_spurious]; exact ih (by simpa using htwo)
    | cons task others =>
      simp only [List.cons_append, List.cons.injEq] at htwo
      obtain ⟨rfl, hothers⟩ := htwo
      cases others with
      | nil =>
        have hstep : condition_variable_wait pred ([task] :: rest) this =
            condition_variable_wait pred rest (task.run this) := by
          simp [condition_variable_wait, hp, run_closures]
        rw [hstep]
        exact wait_one_closure pred rest _ second (by simpa using hothers) hfirst
      | cons other more =>
        simp only [List.cons_append, List.cons.injEq, List.append_eq_nil] at hothers
        obtain ⟨rfl, rfl, hrest⟩ := hothers
        have hstep : condition_variable_wait pred ([task, other] :: rest) this =
            condition_variable_wait pred rest (other.run (task.run this)) := by
          simp [condition_variable_wait, hp, run_closures]
        rw [hstep, wait_no_closure pred rest _ hrest]

/-- The wait of `InitRouting` is released at 100 and below -300000 only.
C1 (amended): for every health score `s`, the wait in `InitRouting` is released by `s` if
and only if `s = 100` or `s < -300000`; every other score, the initial -1 included, leaves
the waiter blocked; the updates 50 then 100 release the wait at 100, the update 50 alone does
not, however the updates fall between the wake-ups of the waiting thread. -/
theorem wait_released_iff (this : Members) (node_id : NodeId) :
    (InitRouting_wait_predicate this = true ↔
      (this.network_health_ = 100 ∨ this.network_health_ < -300000)) ∧
    (InitRouting_wait_predicate this = false ↔
      (-300000 ≤ this.network_health_ ∧ this.network_health_ ≠ 100)) ∧
    InitRouting_wait_predicate Members.initial = false ∧
    condition_variable_wait InitRouting_wait_predicate
        [[{ updated_network_health := 50, node_id := node_id }],
         [{ updated_network_health := 100, node_id := node_id }]] Members.initial =
      (true, { Members.initial with
               network_health_ := 100
               calls := [Call.condition_variable_notify, Call.condition_variable_notify] }) ∧
    condition_variable_wait InitRouting_wait_predicate
        [[{ updated_network_health := 50, node_id := node_id }]] Members.initial =
      (false, { Members.initial with
                network_health_ := 50
                calls := [Call.condition_variable_notify] }) ∧
    (∀ wakeups : List (List Task),
      wakeups.flatten =
        [{ updated_network_health := 50, node_id := node_id },
         { updated_network_health := 100, node_id := node_id }] →
      condition_variable_wait InitRouting_wait_predicate wakeups Members.initial =
        (true, { Members.initial with
                 network_health_ := 100
                 calls := [Call.condition_variable_notify, Call.condition_variable_notify] })) ∧
    (∀ wakeups : List (List Task),
      wakeups.flatten = [{ updated_network_health := 50, node_id := node_id }] →
      condition_variable_wait InitRouting_wait_predicate wakeups Members.initial =
        (false, { Members.initial with
                  network_health_ := 50
                  calls := [Call.condition_variable_notify] })) := by
  refine ⟨InitRouting_wait_predicate_iff this, ?_, rfl, rfl, rfl, ?_, ?_⟩
  · rw [← Bool.not_eq_true, InitRouting_wait_predicate_iff]
    omega
  · intro wakeups htwo
    rw [wait_two_closures InitRouting_wait_predicate wakeups Members.initial _ _ htwo rfl rfl]
    rfl
  · intro wakeups hone
    rw [wait_one_closure InitRouting_wait_predicate wakeups Members.initial _ hone rfl]
    rfl

/-- The score 101 is at least 100 and does not release the wait of `InitRouting`: the
predicate of the wait tests `network_health_ == 100`. -/
theorem wait_not_released_at_101 :
    (101 : Int) ≥ 100 ∧
    InitRouting_wait_predicate { Members.initial with network_health_ := 101 } = false ∧
    (condition_variable_wait InitRouting_wait_predicate
      [[{ updated_network_health := 101, node_id := { string := "node" } }]]
      Members.initial).1 = false := by
  refine ⟨by decide, rfl, rfl⟩

/-- With a routing object present, `InitRouting` builds the table, joins with it, waits, and
decides by the sign of the stored health in the state in which the wait returned. -/
theorem InitRouting_eq (self : AccountGetter) (routing_ : Routing)
    (wakeups : List (List Task)) (h : self.routing_ = some routing_) :
    ∃ functors next,
      self.InitialiseRoutingCallbacks = some (functors, next) ∧
      self.InitRouting wakeups =
        (let waited := condition_variable_wait InitRouting_wait_predicate wakeups
            (waiting_state self routing_ functors).toMembers
         let final : AccountGetter :=
            { waiting_state self routing_ functors with toMembers := waited.2 }
         if waited.1 = true then
           if final.network_health_ < 0 then Result.thrown RoutingErrors.not_connected final
           else Result.ok final
         else Result.blocked final) := by
  simp only [AccountGetter.InitRouting, AccountGetter.InitialiseRoutingCallbacks, h]
  refine ⟨_, _, rfl, ?_⟩
  simp only [waiting_state, List.append_assoc, List.singleton_append]
  split
  · rename_i members hwait
    simp only [List.cons_append, List.nil_append] at hwait
    simp [hwait]
  · rename_i members hwait
    simp only [List.cons_append, List.nil_append] at hwait
    simp [hwait]

/-- At every score that releases the wait, the check `network_health_ < 0` made after the
wait is the test `network_health_ < -300000`. -/
theorem post_wait_check_agrees (this : Members)
    (hreleased : InitRouting_wait_predicate this = true) :
    this.network_health_ < 0 ↔ this.network_health_ < -300000 := by
  rw [InitRouting_wait_predicate_iff] at hreleased
  omega

/-- The result of `InitRouting` as a function of the state in which its wait ended: blocked
while the predicate of the wait is false there, `not_connected` if the wait returned at a
score below -300000, a normal return (then at the score 100) otherwise. -/
theorem InitRouting_by_score (self : AccountGetter) (routing_ : Routing)
    (wakeups : List (List Task)) (h : self.routing_ = some routing_) :
    ∃ functors next waited final,
      self.InitialiseRoutingCallbacks = some (functors, next) ∧
      waited = condition_variable_wait InitRouting_wait_predicate wakeups
        (waiting_state self routing_ functors).toMembers ∧
      final = { waiting_state self routing_ functors with toMembers := waited.2 } ∧
      waited.1 = InitRouting_wait_predicate waited.2 ∧
      (waited.1 = true → final.network_health_ < -300000 ∨ final.network_health_ = 100) ∧
      self.InitRouting wakeups =
        (if waited.1 = true then
          if final.network_health_ < -300000 then
            Result.thrown RoutingErrors.not_connected final
          else Result.ok final
        else Result.blocked final) := by
  obtain ⟨functors, next, hbuilt, hrun⟩ := InitRouting_eq self routing_ wakeups h
  obtain ⟨-, -, -, -, -, hpred⟩ :=
    condition_variable_wait_spec InitRouting_wait_predicate wakeups
      (waiting_state self routing_ functors).toMembers
  refine ⟨functors, next, _, _, hbuilt, rfl, rfl, hpred, ?_, ?_⟩
  · intro hreturned
    rw [hreturned] at hpred
    have hiff := (InitRouting_wait_predicate_iff _).mp hpred.symm
    exact hiff.symm
  · rw [hrun]
    simp only
    by_cases hreturned : (condition_variable_wait InitRouting_wait_predicate wakeups
        (waiting_state self routing_ functors).toMembers).1 = true
    · rw [hreturned] at hpred
      have hagree := post_wait_check_agrees _ hpred.symm
      simp only [hreturned, if_true]
      by_cases hsevere : (condition_variable_wait InitRouting_wait_predicate wakeups
          (waiting_state self routing_ functors).toMembers).2.network_health_ < -300000
      · rw [if_pos (hagree.mpr hsevere), if_pos hsevere]
      · rw [if_neg (fun hneg => hsevere (hagree.mp hneg)), if_neg hsevere]
    · simp only [hreturned, if_false]
      rfl

/-- The outcome of `InitRouting` and of the construction run by `CreateAccountGetter`.
C2: for every score at which the wait returns, `InitRouting` throws `not_connected` if and
only if the score is below -300000, and otherwise returns normally, with the score 100; the
check `network_health_ < 0` made after the wait agrees with `network_health_ < -300000` at
every score that releases the wait; the same holds for the construction run by
`CreateAccountGetter`, which ends with `not_connected` on the single update -400000 and
normally on the single update 100. -/
theorem not_connected_iff_severe_failure (self : AccountGetter) (routing_ : Routing)
    (kNodeId : NodeId) (wakeups : List (List Task)) (h : self.routing_ = some routing_) :
    (∀ this : Members, InitRouting_wait_predicate this = true →
      (this.network_health_ < 0 ↔ this.network_health_ < -300000)) ∧
    (∃ functors next waited final,
      self.InitialiseRoutingCallbacks = some (functors, next) ∧
      waited = condition_variable_wait InitRouting_wait_predicate wakeups
        (waiting_state self routing_ functors).toMembers ∧
      final = { waiting_state self routing_ functors with toMembers := waited.2 } ∧
      waited.1 = InitRouting_wait_predicate waited.2 ∧
      (waited.1 = true → final.network_health_ < -300000 ∨ final.network_health_ = 100) ∧
      self.InitRouting wakeups =
        (if waited.1 = true then
          if final.network_health_ < -300000 then
            Result.thrown RoutingErrors.not_connected final
          else Result.ok final
        else Result.blocked final)) ∧
    (∃ functors next waited final,
      (AccountGetter.initialised kNodeId).InitialiseRoutingCallbacks =
        some (functors, next) ∧
      waited = condition_variable_wait InitRouting_wait_predicate wakeups
        (waiting_state (AccountGetter.initialised kNodeId) { kNodeId := kNodeId }
          functors).toMembers ∧
      final = { waiting_state (AccountGetter.initialised kNodeId) { kNodeId := kNodeId }
                  functors with toMembers := waited.2 } ∧
      waited.1 = InitRouting_wait_predicate waited.2 ∧
      (waited.1 = true → final.network_health_ < -300000 ∨ final.network_health_ = 100) ∧
      AccountGetter.CreateAccountGetter kNodeId wakeups =
        (if waited.1 = true then
          if final.network_health_ < -300000 then
            Result.thrown RoutingErrors.not_connected final
          else Result.ok final
        else Result.blocked final)) ∧
    (AccountGetter.CreateAccountGetter kNodeId
      [[{ updated_network_health := -400000, node_id := kNodeId }]]).error =
      some RoutingErrors.not_connected ∧
    ((AccountGetter.CreateAccountGetter kNodeId
      [[{ updated_network_health := 100, node_id := kNodeId }]]).value.map
        fun final => final.network_health_) = some 100 ∧
    (AccountGetter.CreateAccountGetter kNodeId
      [[{ updated_network_health := -400000, node_id := kNodeId }],
       [{ updated_network_health := 100, node_id := kNodeId }]]).error =
      some RoutingErrors.not_connected ∧
    ((AccountGetter.CreateAccountGetter kNodeId
      [[{ updated_network_health := -400000, node_id := kNodeId },
        { updated_network_health := 100, node_id := kNodeId }]]).value.map
        fun final => final.network_health_) = some 100 ∧
    (AccountGetter.CreateAccountGetter kNodeId
      [[{ updated_network_health := 50, node_id := kNodeId }]]).state.map
        (fun final => final.network_health_) = some 50 ∧
    (AccountGetter.CreateAccountGetter kNodeId
      [[{ updated_network_health := 50, node_id := kNodeId }]]).error = none ∧
    ((AccountGetter.CreateAccountGetter kNodeId
      [[{ updated_network_health := 50, node_id := kNodeId }]]).value.map
        fun final => final.network_health_) = none :=
  ⟨post_wait_check_agrees, InitRouting_by_score self routing_ wakeups h,
    InitRouting_by_score (AccountGetter.initialised kNodeId) { kNodeId := kNodeId } wakeups rfl,
    rfl, rfl, rfl, rfl, rfl, rfl, rfl⟩

/-- The example object with the single update -400000: `InitRouting` and the construction
end with `not_connected`. -/
theorem not_connected_iff_severe_failure_witness :
    example_account_getter.routing_ = some { kNodeId := { string := "node" } } ∧
    ((∀ this : Members, InitRouting_wait_predicate this = true →
      (this.network_health_ < 0 ↔ this.network_health_ < -300000)) ∧
    (∃ functors next waited final,
      example_account_getter.InitialiseRoutingCallbacks = some (functors, next) ∧
      waited = condition_variable_wait InitRouting_wait_predicate
        [[{ updated_network_health := -400000, node_id := { string := "node" } }]]
        (waiting_state example_account_getter { kNodeId := { string := "node" } }
          functors).toMembers ∧
      final = { waiting_state example_account_getter { kNodeId := { string := "node" } }
                  functors with toMembers := waited.2 } ∧
      waited.1 = InitRouting_wait_predicate waited.2 ∧
      (waited.1 = true → final.network_health_ < -300000 ∨ final.network_health_ = 100) ∧
      example_account_getter.InitRouting
          [[{ updated_network_health := -400000, node_id := { string := "node" } }]] =
        (if waited.1 = true then
          if final.network_health_ < -300000 then
            Result.thrown RoutingErrors.not_connected final
          else Result.ok final
        else Result.blocked final)) ∧
    (∃ functors next waited final,
      (AccountGetter.initialised { string := "node" }).InitialiseRoutingCallbacks =
        some (functors, next) ∧
      waited = condition_variable_wait InitRouting_wait_predicate
        [[{ updated_network_health := -400000, node_id := { string := "node" } }]]
        (waiting_state (AccountGetter.initialised { string := "node" })
          { kNodeId := { string := "node" } } functors).toMembers ∧
      final = { waiting_state (AccountGetter.initialised { string := "node" })
                  { kNodeId := { string := "node" } } functors with toMembers := waited.2 } ∧
      waited.1 = InitRouting_wait_predicate waited.2 ∧
      (waited.1 = true → final.network_health_ < -300000 ∨ final.network_health_ = 100) ∧
      AccountGetter.CreateAccountGetter { string := "node" }
          [[{ updated_network_health := -400000, node_id := { string := "node" } }]] =
        (if waited.1 = true then
          if final.network_health_ < -300000 then
            Result.thrown RoutingErrors.not_connected final
          else Result.ok final
        else Result.blocked final)) ∧
    (AccountGetter.CreateAccountGetter { string := "node" }
      [[{ updated_network_health := -400000, node_id := { string := "node" } }]]).error =
      some RoutingErrors.not_connected ∧
    ((AccountGetter.CreateAccountGetter { string := "node" }
      [[{ updated_network_health := 100, node_id := { string := "node" } }]]).value.map
        fun final => final.network_health_) = some 100 ∧
    (AccountGetter.CreateAccountGetter { string := "node" }
      [[{ updated_network_health := -400000, node_id := { string := "node" } }],
       [{ updated_network_health := 100, node_id := { string := "node" } }]]).error =
      some RoutingErrors.not_connected ∧
    ((AccountGetter.CreateAccountGetter { string := "node" }
      [[{ updated_network_health := -400000, node_id := { string := "node" } },
        { updated_network_health := 100, node_id := { string := "node" } }]]).value.map
        fun final => final.network_health_) = some 100 ∧
    (AccountGetter.CreateAccountGetter { string := "node" }
      [[{ updated_network_health := 50, node_id := { string := "node" } }]]).state.map
        (fun final => final.network_health_) = some 50 ∧
    (AccountGetter.CreateAccountGetter { string := "node" }
      [[{ updated_network_health := 50, node_id := { string := "node" } }]]).error = none ∧
    ((AccountGetter.CreateAccountGetter { string := "node" }
      [[{ updated_network_health := 50, node_id := { string := "node" } }]]).value.map
        fun final => final.network_health_) = none) :=
  ⟨rfl, not_connected_iff_severe_failure example_account_getter
    { kNodeId := { string := "node" } } { string := "node" }
    [[{ updated_network_health := -400000, node_id := { string := "node" } }]] rfl⟩

/-- The order of the calls made by `InitRouting`.
C9: in every run of `InitRouting` the node id of the routing object is queried exactly once,
while the table is built; then `Join` is called exactly once, with that table; then the wait
begins; after that only notifications follow, so the node id is not queried again; and the
`network_status` functor of the table, whenever it is called later and whatever the state
then is, posts a closure carrying the node id read before `Join`, which the closure hands
to `UpdateNetworkHealth`. -/
theorem InitRouting_call_order (self : AccountGetter) (routing_ : Routing)
    (wakeups : List (List Task)) (h : self.routing_ = some routing_) :
    ∃ functors next final notified handler,
      self.InitialiseRoutingCallbacks = some (functors, next) ∧
      (self.InitRouting wakeups).state = some final ∧
      final.calls =
        self.calls ++
          [Call.Routing_kNodeId, Call.Routing_Join, Call.condition_variable_wait] ++
          List.replicate notified Call.condition_variable_notify ∧
      final.calls.count Call.Routing_kNodeId = self.calls.count Call.Routing_kNodeId + 1 ∧
      final.calls.count Call.Routing_Join = self.calls.count Call.Routing_Join + 1 ∧
      final.routing_ = some { routing_ with joined := routing_.joined ++ [functors] } ∧
      functors.network_status = some handler ∧
      (∀ (network_health : Int) (this : Members),
        handler network_health this =
          { this with
            asio_service_ :=
              { this.asio_service_ with
                queue := this.asio_service_.queue ++
                  [{ updated_network_health := network_health
                     node_id := routing_.kNodeId }] } }) ∧
      (∀ (task : Task) (this : Members),
        task.run this = UpdateNetworkHealth task.updated_network_health this task.node_id) := by
  obtain ⟨functors, next, hbuilt, hrun⟩ := InitRouting_eq self routing_ wakeups h
  obtain ⟨notified, hcalls, -, -, -, -⟩ :=
    condition_variable_wait_spec InitRouting_wait_predicate wakeups
      (waiting_state self routing_ functors).toMembers
  have hstate : (self.InitRouting wakeups).state =
      some { waiting_state self routing_ functors with
             toMembers := (condition_variable_wait InitRouting_wait_predicate wakeups
               (waiting_state self routing_ functors).toMembers).2 } := by
    rw [hrun]
    simp only
    split_ifs <;> rfl
  have hhandler : ∃ handler, functors.network_status = some handler ∧
      ∀ (network_health : Int) (this : Members),
        handler network_health this =
          { this with
            asio_service_ :=
              { this.asio_service_ with
                queue := this.asio_service_.queue ++
                  [{ updated_network_health := network_health
                     node_id := routing_.kNodeId }] } } := by
    simp only [AccountGetter.InitialiseRoutingCallbacks, h, Option.some.injEq,
      Prod.mk.injEq] at hbuilt
    rw [← hbuilt.1]
    exact ⟨_, rfl, fun _ _ => rfl⟩
  obtain ⟨handler, hslot, hposts⟩ := hhandler
  have hfinal : (condition_variable_wait InitRouting_wait_predicate wakeups
      (waiting_state self routing_ functors).toMembers).2.calls =
      self.calls ++
        [Call.Routing_kNodeId, Call.Routing_Join, Call.condition_variable_wait] ++
        List.replicate notified Call.condition_variable_notify := by
    rw [hcalls]; rfl
  refine ⟨functors, next, _, notified, handler, hbuilt, hstate, hfinal, ?_, ?_, rfl, hslot,
    hposts, fun _ _ => rfl⟩
  · show List.count _ (condition_variable_wait InitRouting_wait_predicate wakeups
      (waiting_state self routing_ functors).toMembers).2.calls = _
    rw [hfinal]
    simp [List.count_append, List.count_replicate]
  · show List.count _ (condition_variable_wait InitRouting_wait_predicate wakeups
      (waiting_state self routing_ functors).toMembers).2.calls = _
    rw [hfinal]
    simp [List.count_append, List.count_replicate]

/-- Loading what `save` wrote gives back the saved record.
C10: for every `DirectoryInfo` value `d`, loading into any `DirectoryInfo` from the archive
produced by `d.save` yields a record equal to `d` in all four fields: `save` writes the path
as a string, `parent_id`, `directory_id` and `access_rights` in this order, `load` reads them
in the same order, and the path assigned from the characters of its string form is the path
saved. -/
theorem load_save (d target : DirectoryInfo) (rest : Archive) :
    d.save [] =
      [ArchiveValue.string d.path.string, ArchiveValue.parent_id d.parent_id,
       ArchiveValue.directory_id d.directory_id, ArchiveValue.access_rights d.access_rights] ∧
    target.load (d.save []) = some (d, []) ∧
    target.load (d.save [] ++ rest) = some (d, rest) ∧
    target.path.assign d.path.string.data = d.path := by
  refine ⟨rfl, rfl, rfl, rfl⟩

/-- The `request_public_key` handler of the table built for the example object. -/
theorem request_public_key_handler_witness :
    example_account_getter.routing_ = some { kNodeId := { string := "node" } } ∧
    ∃ functors next handler,
      example_account_getter.InitialiseRoutingCallbacks = some (functors, next) ∧
      functors.request_public_key = some handler ∧
      (∀ (n : NodeId) (cb : GivePublicKeyFunctor) (this : Members),
        handler n cb this =
          { this with
            data_getter_ := { futures_issued := this.data_getter_.futures_issued + 1 }
            public_pmid_helper_ :=
              { entries := this.public_pmid_helper_.entries ++
                  [({ ticket := this.data_getter_.futures_issued }, cb)] }
            calls := this.calls ++
              [Call.DataGetter_Get { value := { string := n.string } } 10
                { ticket := this.data_getter_.futures_issued }] }) ∧
      (∀ (requests : List (NodeId × GivePublicKeyFunctor)) (this : Members),
        (serve_requests handler requests this).calls =
          this.calls ++
            (requests.enumFrom this.data_getter_.futures_issued).map (fun numbered =>
              Call.DataGetter_Get { value := { string := numbered.2.1.string } } 10
                { ticket := numbered.1 }) ∧
        (serve_requests handler requests this).public_pmid_helper_.entries =
          this.public_pmid_helper_.entries ++
            (requests.enumFrom this.data_getter_.futures_issued).map (fun numbered =>
              (({ ticket := numbered.1 } : FutureKey), numbered.2.2)) ∧
        (serve_requests handler requests this).calls.length =
          this.calls.length + requests.length ∧
        (serve_requests handler requests this).public_pmid_helper_.entries.length =
          this.public_pmid_helper_.entries.length + requests.length ∧
        (serve_requests handler requests this).network_health_ = this.network_health_ ∧
        (serve_requests handler requests this).asio_service_ = this.asio_service_) :=
  ⟨rfl, request_public_key_handler example_account_getter _ rfl⟩

/-- The `network_status` functor of the table built for the example object. -/
theorem network_status_posts_one_task_witness :
    example_account_getter.routing_ = some { kNodeId := { string := "node" } } ∧
    ∃ functors next handler,
      example_account_getter.InitialiseRoutingCallbacks = some (functors, next) ∧
      functors.network_status = some handler ∧
      (∀ (network_health : Int) (this : Members),
        handler network_health this =
          OnNetworkStatusChange network_health { string := "node" } this) ∧
      (∀ (network_health : Int) (node_id : NodeId) (this : Members),
        OnNetworkStatusChange network_health node_id this =
          { this with
            asio_service_ :=
              { this.asio_service_ with
                queue := this.asio_service_.queue ++
                  [{ updated_network_health := network_health, node_id := node_id }] } } ∧
        (OnNetworkStatusChange network_health node_id this).network_health_ =
          this.network_health_ ∧
        (OnNetworkStatusChange network_health node_id this).asio_service_.queue.length =
          this.asio_service_.queue.length + 1) ∧
      (∀ (network_health : Int) (node_id : NodeId) (this : Members),
        (Task.run { updated_network_health := network_health, node_id := node_id }
          this).network_health_ = network_health ∧
        Task.run { updated_network_health := network_health, node_id := node_id } this =
          { this with
            network_health_ := network_health
            calls := this.calls ++ [Call.condition_variable_notify] }) ∧
      (∀ (event : WorkerEvent) (this after : Members),
        AsioService_step event this = some after →
        after.network_health_ ≠ this.network_health_ →
        ∃ index task, event = WorkerEvent.complete index ∧
          this.asio_service_.running.get? index = some task ∧
          after.network_health_ = task.updated_network_health) :=
  ⟨rfl, network_status_posts_one_task example_account_getter _ rfl⟩

/-- The calls made by `InitRouting` on the example object with the updates 50 and 100. -/
theorem InitRouting_call_order_witness :
    example_account_getter.routing_ = some { kNodeId := { string := "node" } } ∧
    ∃ functors next final notified handler,
      example_account_getter.InitialiseRoutingCallbacks = some (functors, next) ∧
      (example_account_getter.InitRouting
        [[{ updated_network_health := 50, node_id := { string := "node" } }],
         [{ updated_network_health := 100, node_id := { string := "node" } }]]).state =
        some final ∧
      final.calls =
        example_account_getter.calls ++
          [Call.Routing_kNodeId, Call.Routing_Join, Call.condition_variable_wait] ++
          List.replicate notified Call.condition_variable_notify ∧
      final.calls.count Call.Routing_kNodeId =
        example_account_getter.calls.count Call.Routing_kNodeId + 1 ∧
      final.calls.count Call.Routing_Join =
        example_account_getter.calls.count Call.Routing_Join + 1 ∧
      final.routing_ =
        some { kNodeId := { string := "node" }, joined := [] ++ [functors] } ∧
      functors.network_status = some handler ∧
      (∀ (network_health : Int) (this : Members),
        handler network_health this =
          { this with
            asio_service_ :=
              { this.asio_service_ with
                queue := this.asio_service_.queue ++
                  [{ updated_network_health := network_health
                     node_id := { string := "node" } }] } }) ∧
      (∀ (task : Task) (this : Members),
        task.run this = UpdateNetworkHealth task.updated_network_health this task.node_id) :=
  ⟨rfl, InitRouting_call_order example_account_getter _ _ rfl⟩

end launcher

end maidsafe
